import Mathlib

/-!
Shallow embedding of `src/PaymentChannel.js` (snet-sdk-js payment channel
state reconciliation) and proofs about its behaviour.

Modelling conventions:
* bignumber.js values are restricted to the integers actually produced by
  this code; `BigNum := Option ℤ` where `none` models the `NaN` value.
* A JavaScript object field that may be absent (`undefined`) is modelled
  with an outer `Option`; `none` means the field is not present.
* ECMAScript numbers are IEEE-754 binary64.  Every number produced by this
  code is integer valued, so a number is modelled as the integer it holds
  (`none` again standing for `NaN`).  Conversion of an exact integer to a
  number rounds to 53 significant bits with ties to even (`roundInt53`);
  this is exact below `2 ^ 53`.  The model does not represent overflow to
  `Infinity` (only relevant beyond `2 ^ 1024`, far above every value used
  in the theorems below).
-/

/-- A bignumber.js value as produced by this code: an exact integer, or
`none` for the `NaN` value. -/
abbrev BigNum := Option ℤ

/-- Lower-case hex digit character for a value `d < 16`, as produced by
Node's `Buffer.prototype.toString` with encoding `hex`. -/
def hexDigitChar (d : ℕ) : Char :=
  if d < 10 then Char.ofNat (48 + d) else Char.ofNat (87 + d)

/-- The two hex characters of one byte, most significant nibble first. -/
def byteToHex (b : ℕ) : List Char :=
  [hexDigitChar (b / 16), hexDigitChar (b % 16)]

/-- Models `Buffer.from(uint8Array).toString('hex')`: the concatenation of
the two-character hex encodings of the bytes. -/
def bufferToHex : List ℕ → List Char
  | [] => []
  | b :: bs => byteToHex b ++ bufferToHex bs

/-- Value of one hex character (digits and lower-case letters, the only
characters `bufferToHex` produces); `none` for any other character, which
bignumber.js turns into `NaN`. -/
def hexDigitVal (c : Char) : Option ℕ :=
  let n := c.toNat
  if 48 ≤ n ∧ n ≤ 57 then some (n - 48)
  else if 97 ≤ n ∧ n ≤ 102 then some (n - 87)
  else none

/-- One step of big-endian base-16 accumulation; an invalid character
poisons the whole parse (bignumber.js yields `NaN`). -/
def parseHexStep (acc : Option ℕ) (c : Char) : Option ℕ :=
  match acc, hexDigitVal c with
  | some a, some d => some (16 * a + d)
  | _, _ => none

/-- Big-endian value of a hex character string. -/
def parseHexNat (cs : List Char) : Option ℕ :=
  cs.foldl parseHexStep (some 0)

/-- Models `PaymentChannel._uint8ArrayToBN`: build the string
`'0x' + buffer.toString('hex')` and hand it to the bignumber.js
constructor.  bignumber.js accepts a `0x` prefix only when at least one
character follows it (its base-prefix pattern uses the lookahead
`(?=\w[\w.]*$)`), so the bare string `0x` produced by an empty byte array
parses to `NaN`, modelled as `none`. -/
def _uint8ArrayToBN (bytes : List ℕ) : BigNum :=
  let hex := bufferToHex bytes
  if hex.isEmpty then none else (parseHexNat hex).map Int.ofNat

/-- Big-endian base-256 value of a byte list (specification-side helper
for stating what decoding yields). -/
def beValue (bytes : List ℕ) : ℕ :=
  bytes.foldl (fun x b => 256 * x + b) 0

/-- Models `Buffer.alloc(4)` followed by `writeUInt32BE(n, 0)`: the four
big-endian bytes of `n` (Node throws for `n ≥ 2 ^ 32`, so the theorems
assume the claimed range). -/
def writeUInt32BE (n : ℕ) : List ℕ :=
  [n / 2 ^ 24 % 256, n / 2 ^ 16 % 256, n / 2 ^ 8 % 256, n % 256]

/-- Number of binary digits of `n`, with enough structural fuel for every
value below `2 ^ 1100` (beyond the finite double range). -/
def bitLenAux : ℕ → ℕ → ℕ
  | 0, _ => 0
  | fuel + 1, n => if n = 0 then 0 else bitLenAux fuel (n / 2) + 1

/-- Bit length of a natural number. -/
def bitLen (n : ℕ) : ℕ := bitLenAux 1100 n

/-- Round a natural number to the nearest IEEE-754 binary64 value
(53 significant bits, ties to even); exact below `2 ^ 53`. -/
def roundNat53 (n : ℕ) : ℕ :=
  if bitLen n ≤ 53 then n
  else
    let s := bitLen n - 53
    let q := n / 2 ^ s
    let r := n % 2 ^ s
    let half := 2 ^ (s - 1)
    (if half < r ∨ (r = half ∧ q % 2 = 1) then q + 1 else q) * 2 ^ s

/-- Round an integer to the nearest binary64 value. -/
def roundInt53 (z : ℤ) : ℤ :=
  if z < 0 then -(roundNat53 z.natAbs : ℤ) else (roundNat53 z.natAbs : ℤ)

/-- Models the ECMAScript expression `a - b` when `a` and `b` are
big-integer objects (bignumber.js / BN values): each operand is converted
to a binary64 number via its decimal string (exact value rounded to
nearest), the exact difference of the two numbers is rounded again, and
`NaN` propagates. -/
def jsSub (a b : BigNum) : BigNum :=
  match a, b with
  | some x, some y => some (roundInt53 (roundInt53 x - roundInt53 y))
  | _, _ => none

/-- The record returned by `MPEContract.channels(channelId)`: on-chain
nonce, expiration and total deposited value, all exact integers. -/
structure BlockchainChannelInfo where
  nonce : ℤ
  expiration : ℤ
  value : ℤ
deriving DecidableEq

/-- The wire reply of the daemon's `getChannelState`: two byte arrays. -/
structure ChannelStateReply where
  currentNonce : List ℕ
  currentSignedAmount : List ℕ
deriving DecidableEq

/-- The object `_currentChannelState` resolves with:
`{ lastSignedAmount, nonce }` decoded from the reply bytes. -/
structure OffchainChannelState where
  lastSignedAmount : BigNum
  nonce : BigNum
deriving DecidableEq

/-- The decoding step of `PaymentChannel._currentChannelState` (the
request construction — 4-byte channel id plus signature — is modelled by
`writeUInt32BE`; it does not influence the decoded reply). -/
def _currentChannelState (reply : ChannelStateReply) : OffchainChannelState :=
  { lastSignedAmount := _uint8ArrayToBN reply.currentSignedAmount,
    nonce := _uint8ArrayToBN reply.currentNonce }

/-- The `_state` object of a `PaymentChannel`.  `nonce` and
`lastSignedAmount` are always present (value `none` = bignumber `NaN`);
the other four fields are absent (`none`) until the first successful
sync.  `availableAmount` holds an ECMAScript number. -/
structure ChannelState where
  nonce : BigNum
  currentNonce : Option BigNum
  expiration : Option ℤ
  totalAmount : Option ℤ
  lastSignedAmount : BigNum
  availableAmount : Option BigNum
deriving DecidableEq

/-- A `PaymentChannel` instance: the channel id plus opaque references to
the web3 instance, account, MPE contract and state-service client, and
the owned `_state`. -/
structure PaymentChannel where
  channelId : ℕ
  web3 : ℕ
  account : ℕ
  mpeContract : ℕ
  serviceClient : ℕ
  state : ChannelState
deriving DecidableEq

/-- Models the `PaymentChannel` constructor: stores the references and
initialises `_state` with `nonce` and `lastSignedAmount` both
`new BigNumber(0)`; no other state field exists yet. -/
def newPaymentChannel (channelId web3 account mpeContract serviceClient : ℕ) :
    PaymentChannel :=
  { channelId, web3, account, mpeContract, serviceClient,
    state :=
      { nonce := some 0,
        currentNonce := none,
        expiration := none,
        totalAmount := none,
        lastSignedAmount := some 0,
        availableAmount := none } }

/-- The object literal assigned to `this._state` in `syncState`, built
from the on-chain record and the decoded off-chain state; the JS
subtraction `totalAmount - lastSignedAmount` is `jsSub`. -/
def mergeState (info : BlockchainChannelInfo) (cur : OffchainChannelState) :
    ChannelState :=
  { nonce := some info.nonce,
    currentNonce := some cur.nonce,
    expiration := some info.expiration,
    totalAmount := some info.value,
    lastSignedAmount := cur.lastSignedAmount,
    availableAmount := some (jsSub (some info.value) cur.lastSignedAmount) }

/-- Models `syncState`: await the on-chain read, then the off-chain state
query; a rejection of either propagates before `this._state` is
reassigned; on success the merged record is installed and `this` (the
channel itself) is returned. -/
def syncState {ε : Type} (ch : PaymentChannel)
    (chainRead : Except ε BlockchainChannelInfo)
    (serviceRead : Except ε ChannelStateReply) : Except ε PaymentChannel :=
  match chainRead with
  | .error e => .error e
  | .ok info =>
    match serviceRead with
    | .error e => .error e
    | .ok reply =>
      .ok { ch with state := mergeState info (_currentChannelState reply) }

/-- The channel as observable after a `syncState` call: on success the
channel with the merged state (the assignment happened), on failure the
channel exactly as it was. -/
def syncStatePost {ε : Type} (ch : PaymentChannel)
    (chainRead : Except ε BlockchainChannelInfo)
    (serviceRead : Except ε ChannelStateReply) : PaymentChannel :=
  match syncState ch chainRead serviceRead with
  | .ok c => c
  | .error _ => ch

/-- Decoding inverts encoding on single hex digits. -/
lemma hexDigitVal_hexDigitChar : ∀ d < 16, hexDigitVal (hexDigitChar d) = some d := by
  decide

/-- Folding the hex parser over the two characters of one byte multiplies
the accumulator by 256 and adds the byte. -/
lemma foldl_parseHex_byte (a b : ℕ) (hb : b < 256) :
    List.foldl parseHexStep (some a) (byteToHex b) = some (256 * a + b) := by
  have h1 : b / 16 < 16 := by omega
  have h2 : b % 16 < 16 := by omega
  simp [byteToHex, parseHexStep, hexDigitVal_hexDigitChar _ h1,
    hexDigitVal_hexDigitChar _ h2]
  omega

/-- The hex parser over the full hex string of a byte list computes the
big-endian base-256 fold. -/
lemma foldl_parseHex_bufferToHex (bytes : List ℕ) (h : ∀ b ∈ bytes, b < 256) :
    ∀ a, List.foldl parseHexStep (some a) (bufferToHex bytes)
      = some (bytes.foldl (fun x b => 256 * x + b) a) := by
  induction bytes with
  | nil => intro a; simp [bufferToHex]
  | cons b bs ih =>
    intro a
    rw [bufferToHex, List.foldl_append,
      foldl_parseHex_byte a b (h b (List.mem_cons_self b bs)), List.foldl_cons]
    exact ih (fun x hx => h x (List.mem_cons_of_mem b hx)) (256 * a + b)

/-- On any non-empty byte array, `_uint8ArrayToBN` yields exactly the
big-endian base-256 value of the bytes. -/
lemma uint8ArrayToBN_eq_beValue (bytes : List ℕ) (hne : bytes ≠ [])
    (h : ∀ b ∈ bytes, b < 256) :
    _uint8ArrayToBN bytes = some (Int.ofNat (beValue bytes)) := by
  match bytes, hne with
  | b :: bs, _ =>
    have hhex : (bufferToHex (b :: bs)).isEmpty = false := by
      rw [bufferToHex]; rfl
    rw [_uint8ArrayToBN]
    simp only [hhex, Bool.false_eq_true, if_false, parseHexNat]
    rw [foldl_parseHex_bufferToHex (b :: bs) h 0]
    rfl

/-- A rejection of either source read leaves the channel untouched and
surfaces the error (shared helper behind the atomicity claims). -/
lemma syncStatePost_of_error {ε : Type} (ch : PaymentChannel)
    (chain : Except ε BlockchainChannelInfo)
    (service : Except ε ChannelStateReply)
    (h : (∃ e, chain = Except.error e) ∨ (∃ e, service = Except.error e)) :
    syncStatePost ch chain service = ch
      ∧ ∃ e, syncState ch chain service = Except.error e := by
  cases chain with
  | error e => exact ⟨rfl, ⟨e, rfl⟩⟩
  | ok info =>
    cases service with
    | error e => exact ⟨rfl, ⟨e, rfl⟩⟩
    | ok reply =>
      rcases h with ⟨e, he⟩ | ⟨e, he⟩ <;> exact absurd he (by simp)

/-- C8: every newly constructed `PaymentChannel`, before any sync, holds
a zero-valued state with `nonce = new BigNumber(0)` and
`lastSignedAmount = new BigNumber(0)`. -/
theorem initial_state_zero (cid web3 account mpe svc : ℕ) :
    (newPaymentChannel cid web3 account mpe svc).state.nonce = some 0
      ∧ (newPaymentChannel cid web3 account mpe svc).state.lastSignedAmount = some 0 :=
  ⟨rfl, rfl⟩

/-- C3: if either the on-chain read or the off-chain state query rejects,
`syncState` rejects with that error and the channel held state after the
call is identical to the state before it; no partial merge is committed. -/
theorem syncState_failure_preserves_state {ε : Type} (ch : PaymentChannel)
    (chain : Except ε BlockchainChannelInfo)
    (service : Except ε ChannelStateReply)
    (h : (∃ e, chain = Except.error e) ∨ (∃ e, service = Except.error e)) :
    syncStatePost ch chain service = ch
      ∧ ∃ e, syncState ch chain service = Except.error e :=
  syncStatePost_of_error ch chain service h

/-- Witness for C3: a failed on-chain read leaves a concrete freshly
constructed channel unchanged. -/
theorem syncState_failure_preserves_state_witness :
    syncStatePost (newPaymentChannel 1 0 0 0 0)
        (Except.error (0 : ℕ)) (Except.ok ⟨[4], [2]⟩)
      = newPaymentChannel 1 0 0 0 0 :=
  (syncState_failure_preserves_state (newPaymentChannel 1 0 0 0 0)
    (Except.error 0) (Except.ok ⟨[4], [2]⟩) (Or.inl ⟨0, rfl⟩)).1

/-- C10: before any successful sync the held state carries only `nonce`
and `lastSignedAmount`; `currentNonce`, `expiration`, `totalAmount` and
`availableAmount` are absent, both on a fresh channel and after a failed
sync attempt. -/
theorem unsynced_fields_absent {ε : Type} (cid web3 account mpe svc : ℕ)
    (chain : Except ε BlockchainChannelInfo)
    (service : Except ε ChannelStateReply)
    (h : (∃ e, chain = Except.error e) ∨ (∃ e, service = Except.error e)) :
    (newPaymentChannel cid web3 account mpe svc).state.currentNonce = none
      ∧ (newPaymentChannel cid web3 account mpe svc).state.expiration = none
      ∧ (newPaymentChannel cid web3 account mpe svc).state.totalAmount = none
      ∧ (newPaymentChannel cid web3 account mpe svc).state.availableAmount = none
      ∧ (syncStatePost (newPaymentChannel cid web3 account mpe svc) chain service).state.currentNonce = none
      ∧ (syncStatePost (newPaymentChannel cid web3 account mpe svc) chain service).state.expiration = none
      ∧ (syncStatePost (newPaymentChannel cid web3 account mpe svc) chain service).state.totalAmount = none
      ∧ (syncStatePost (newPaymentChannel cid web3 account mpe svc) chain service).state.availableAmount = none := by
  have hpost := (syncStatePost_of_error (newPaymentChannel cid web3 account mpe svc)
    chain service h).1
  rw [hpost]
  exact ⟨rfl, rfl, rfl, rfl, rfl, rfl, rfl, rfl⟩

/-- Witness for C10: a concrete fresh channel whose off-chain query
failed still has all four merged-only fields absent. -/
theorem unsynced_fields_absent_witness :
    (newPaymentChannel 2 0 0 0 0).state.currentNonce = none
      ∧ (newPaymentChannel 2 0 0 0 0).state.expiration = none
      ∧ (newPaymentChannel 2 0 0 0 0).state.totalAmount = none
      ∧ (newPaymentChannel 2 0 0 0 0).state.availableAmount = none
      ∧ (syncStatePost (newPaymentChannel 2 0 0 0 0)
          (Except.ok ⟨1, 2, 3⟩) (Except.error (7 : ℕ))).state.currentNonce = none
      ∧ (syncStatePost (newPaymentChannel 2 0 0 0 0)
          (Except.ok ⟨1, 2, 3⟩) (Except.error (7 : ℕ))).state.expiration = none
      ∧ (syncStatePost (newPaymentChannel 2 0 0 0 0)
          (Except.ok ⟨1, 2, 3⟩) (Except.error (7 : ℕ))).state.totalAmount = none
      ∧ (syncStatePost (newPaymentChannel 2 0 0 0 0)
          (Except.ok ⟨1, 2, 3⟩) (Except.error (7 : ℕ))).state.availableAmount = none :=
  unsynced_fields_absent 2 0 0 0 0 (Except.ok ⟨1, 2, 3⟩) (Except.error 7)
    (Or.inr ⟨7, rfl⟩)

/-- C6: the authentication challenge serialises the channel id as exactly
four big-endian bytes, and decoding those bytes as a big-endian unsigned
integer (via `_uint8ArrayToBN`) returns the original id, for every id in
the claimed range. -/
theorem channelId_serialization_roundtrip (n : ℕ) (h : n < 2 ^ 32 - 1) :
    (writeUInt32BE n).length = 4
      ∧ _uint8ArrayToBN (writeUInt32BE n) = some (n : ℤ) := by
  refine ⟨rfl, ?_⟩
  rw [uint8ArrayToBN_eq_beValue (writeUInt32BE n) (by simp [writeUInt32BE])
    (by intro b hb; simp [writeUInt32BE] at hb; rcases hb with h | h | h | h <;> omega)]
  simp only [beValue, writeUInt32BE, List.foldl_cons, List.foldl_nil]
  have hx : 256 * (256 * (256 * (256 * 0 + n / 2 ^ 24 % 256) + n / 2 ^ 16 % 256)
      + n / 2 ^ 8 % 256) + n % 256 = n := by omega
  rw [hx]
  rfl

/-- Witness for C6: the round trip at channel id 5. -/
theorem channelId_serialization_roundtrip_witness :
    5 < 2 ^ 32 - 1
      ∧ ((writeUInt32BE 5).length = 4
          ∧ _uint8ArrayToBN (writeUInt32BE 5) = some (5 : ℤ)) :=
  ⟨by decide, channelId_serialization_roundtrip 5 (by decide)⟩

/-- C7: when the service-reported nonce decodes below the on-chain nonce,
`syncState` succeeds and the merged state carries the on-chain value in
`nonce` and the off-chain value in `currentNonce`, two distinct fields
holding distinct values. -/
theorem nonce_skew_surfaced {ε : Type} (ch : PaymentChannel)
    (info : BlockchainChannelInfo) (reply : ChannelStateReply) (cn : ℤ)
    (h1 : _uint8ArrayToBN reply.currentNonce = some cn)
    (h2 : cn < info.nonce) :
    ∃ c, (syncState ch (Except.ok info) (Except.ok reply) : Except ε PaymentChannel)
        = Except.ok c
      ∧ c.state.nonce = some info.nonce
      ∧ c.state.currentNonce = some (some cn)
      ∧ c.state.currentNonce ≠ some c.state.nonce := by
  refine ⟨{ ch with state := mergeState info (_currentChannelState reply) },
    rfl, rfl, ?_, ?_⟩
  · show some (_uint8ArrayToBN reply.currentNonce) = some (some cn)
    rw [h1]
  · show some (_uint8ArrayToBN reply.currentNonce) ≠ some (some info.nonce)
    rw [h1]
    intro hcontra
    have : cn = info.nonce := by
      injection hcontra with hcontra2
      injection hcontra2
    omega

/-- Witness for C7: on-chain nonce 5, off-chain nonce bytes decoding to
4; both surface in the merged state. -/
theorem nonce_skew_surfaced_witness :
    ∃ c, (syncState (newPaymentChannel 9 0 0 0 0)
          (Except.ok ⟨5, 100, 10⟩) (Except.ok ⟨[4], [2]⟩) : Except ℕ PaymentChannel)
        = Except.ok c
      ∧ c.state.nonce = some (5 : ℤ)
      ∧ c.state.currentNonce = some (some 4)
      ∧ c.state.currentNonce ≠ some c.state.nonce := by
  have h := nonce_skew_surfaced (ε := ℕ) (newPaymentChannel 9 0 0 0 0)
    ⟨5, 100, 10⟩ ⟨[4], [2]⟩ 4 (by decide) (by decide)
  exact h

/-- C9: a successful sync replaces the held state with the single merged
record and leaves the channel id, web3, account, contract and
service-client references unchanged. -/
theorem syncState_frame {ε : Type} (ch c : PaymentChannel)
    (info : BlockchainChannelInfo) (reply : ChannelStateReply)
    (h : (syncState ch (Except.ok info) (Except.ok reply) : Except ε PaymentChannel)
      = Except.ok c) :
    c.channelId = ch.channelId
      ∧ c.web3 = ch.web3
      ∧ c.account = ch.account
      ∧ c.mpeContract = ch.mpeContract
      ∧ c.serviceClient = ch.serviceClient
      ∧ c.state = mergeState info (_currentChannelState reply) := by
  have hc : ({ ch with state := mergeState info (_currentChannelState reply) }
      : PaymentChannel) = c := by
    injection h
  rw [← hc]
  exact ⟨rfl, rfl, rfl, rfl, rfl, rfl⟩

/-- Witness for C9: concrete sync keeps every reference of the channel
and installs exactly the merged record. -/
theorem syncState_frame_witness :
    (syncStatePost (newPaymentChannel 3 0 1 2 4)
        (Except.ok (⟨3, 900000, 1000⟩ : BlockchainChannelInfo) : Except ℕ _)
        (Except.ok ⟨[3], [250]⟩)).channelId = (newPaymentChannel 3 0 1 2 4).channelId
      ∧ (syncStatePost (newPaymentChannel 3 0 1 2 4)
          (Except.ok (⟨3, 900000, 1000⟩ : BlockchainChannelInfo) : Except ℕ _)
          (Except.ok ⟨[3], [250]⟩)).web3 = (newPaymentChannel 3 0 1 2 4).web3
      ∧ (syncStatePost (newPaymentChannel 3 0 1 2 4)
          (Except.ok (⟨3, 900000, 1000⟩ : BlockchainChannelInfo) : Except ℕ _)
          (Except.ok ⟨[3], [250]⟩)).account = (newPaymentChannel 3 0 1 2 4).account
      ∧ (syncStatePost (newPaymentChannel 3 0 1 2 4)
          (Except.ok (⟨3, 900000, 1000⟩ : BlockchainChannelInfo) : Except ℕ _)
          (Except.ok ⟨[3], [250]⟩)).mpeContract = (newPaymentChannel 3 0 1 2 4).mpeContract
      ∧ (syncStatePost (newPaymentChannel 3 0 1 2 4)
          (Except.ok (⟨3, 900000, 1000⟩ : BlockchainChannelInfo) : Except ℕ _)
          (Except.ok ⟨[3], [250]⟩)).serviceClient = (newPaymentChannel 3 0 1 2 4).serviceClient
      ∧ (syncStatePost (newPaymentChannel 3 0 1 2 4)
          (Except.ok (⟨3, 900000, 1000⟩ : BlockchainChannelInfo) : Except ℕ _)
          (Except.ok ⟨[3], [250]⟩)).state
        = mergeState ⟨3, 900000, 1000⟩ (_currentChannelState ⟨[3], [250]⟩) :=
  syncState_frame (ε := ℕ) (newPaymentChannel 3 0 1 2 4)
    (syncStatePost (newPaymentChannel 3 0 1 2 4)
      (Except.ok (⟨3, 900000, 1000⟩ : BlockchainChannelInfo) : Except ℕ _)
      (Except.ok ⟨[3], [250]⟩))
    ⟨3, 900000, 1000⟩ ⟨[3], [250]⟩ rfl

/-- C4 counterexample: two channels that differ only in their channel id
merge identical records from identical source reads, yet `syncState`
returns different values — because the source returns `this` (the
`PaymentChannel`), not the bare merged `ChannelState` record.  If the
result value were the merged record, equal records would force equal
results. -/
theorem syncState_result_not_bare_state :
    ((syncState (newPaymentChannel 1 0 0 0 0)
        (Except.ok ⟨3, 900000, 1000⟩) (Except.ok ⟨[3], [250]⟩) : Except ℕ PaymentChannel).map
        (fun c => c.state)
      = (syncState (newPaymentChannel 2 0 0 0 0)
          (Except.ok ⟨3, 900000, 1000⟩) (Except.ok ⟨[3], [250]⟩) : Except ℕ PaymentChannel).map
          (fun c => c.state))
    ∧ (syncState (newPaymentChannel 1 0 0 0 0)
        (Except.ok ⟨3, 900000, 1000⟩) (Except.ok ⟨[3], [250]⟩) : Except ℕ PaymentChannel)
      ≠ (syncState (newPaymentChannel 2 0 0 0 0)
          (Except.ok ⟨3, 900000, 1000⟩) (Except.ok ⟨[3], [250]⟩) : Except ℕ PaymentChannel) := by
  refine ⟨rfl, fun hcontra => ?_⟩
  have h2 := congrArg (fun x => Except.map (fun c => c.channelId) x) hcontra
  simp [syncState, newPaymentChannel, Except.map] at h2

/-- C4 (amended): a successful `syncState` installs the merged record as
the channel's current state and returns the `PaymentChannel` itself
(whose `state` getter exposes that record), not the bare record. -/
theorem syncState_returns_self_with_new_state {ε : Type} (ch : PaymentChannel)
    (info : BlockchainChannelInfo) (reply : ChannelStateReply) :
    (syncState ch (Except.ok info) (Except.ok reply) : Except ε PaymentChannel)
      = Except.ok { ch with state := mergeState info (_currentChannelState reply) } :=
  rfl

set_option maxRecDepth 40000 in
/-- C2 (code bug): `_uint8ArrayToBN` decodes non-empty byte arrays of any
length exactly (including all-zero arrays and a 21-byte value), but the
empty byte array — the protobuf wire encoding of the integer 0 — builds
the string `0x`, which bignumber.js parses to `NaN`, not 0. -/
theorem uint8ArrayToBN_empty_is_nan :
    _uint8ArrayToBN [] = none
      ∧ _uint8ArrayToBN [0] = some 0
      ∧ _uint8ArrayToBN [0, 0, 0] = some 0
      ∧ _uint8ArrayToBN [1] = some 1
      ∧ _uint8ArrayToBN [255, 255, 255, 255] = some 4294967295
      ∧ _uint8ArrayToBN (1 :: (List.replicate 19 0 ++ [1])) = some (2 ^ 160 + 1) := by
  refine ⟨rfl, rfl, rfl, rfl, rfl, ?_⟩
  decide

set_option maxRecDepth 40000 in
/-- C1 (code bug): with on-chain `totalAmount = 2 ^ 53 + 1` and off-chain
signed-amount bytes `[0x01]` (so `totalAmount ≥ lastSignedAmount ≥ 0`),
the sync succeeds but stores `availableAmount = 2 ^ 53 - 1`, not the
exact difference `2 ^ 53`: the source computes `totalAmount -
lastSignedAmount` with the native JS minus, which coerces both
big-integer objects to 64-bit floats. -/
theorem availableAmount_floating_point_loss :
    (syncStatePost (newPaymentChannel 7 0 1 2 3)
        (Except.ok (⟨1, 100, 9007199254740993⟩ : BlockchainChannelInfo) : Except ℕ _)
        (Except.ok ⟨[1], [1]⟩)).state.totalAmount = some 9007199254740993
      ∧ (syncStatePost (newPaymentChannel 7 0 1 2 3)
          (Except.ok (⟨1, 100, 9007199254740993⟩ : BlockchainChannelInfo) : Except ℕ _)
          (Except.ok ⟨[1], [1]⟩)).state.lastSignedAmount = some 1
      ∧ (syncStatePost (newPaymentChannel 7 0 1 2 3)
          (Except.ok (⟨1, 100, 9007199254740993⟩ : BlockchainChannelInfo) : Except ℕ _)
          (Except.ok ⟨[1], [1]⟩)).state.availableAmount
        = some (some 9007199254740991)
      ∧ (9007199254740993 : ℤ) - 1 = 9007199254740992
      ∧ (syncStatePost (newPaymentChannel 7 0 1 2 3)
          (Except.ok (⟨1, 100, 9007199254740993⟩ : BlockchainChannelInfo) : Except ℕ _)
          (Except.ok ⟨[1], [1]⟩)).state.availableAmount
        ≠ some (some ((9007199254740993 : ℤ) - 1)) := by
  refine ⟨rfl, rfl, ?_, by norm_num, ?_⟩ <;> decide

set_option maxRecDepth 40000 in
/-- C5 (code bug): with `lastSignedAmount = 2 ^ 53 + 1 > totalAmount = 1`
the sync succeeds and reports a negative `availableAmount` that is not
clamped to zero, but the value is the float-rounded `-(2 ^ 53 - 1)`, not
the exact difference `-2 ^ 53`. -/
theorem negative_availableAmount_not_exact :
    (syncState (newPaymentChannel 8 0 1 2 3)
        (Except.ok (⟨2, 100, 1⟩ : BlockchainChannelInfo) : Except ℕ _)
        (Except.ok ⟨[1], [32, 0, 0, 0, 0, 0, 1]⟩))
      = Except.ok (syncStatePost (newPaymentChannel 8 0 1 2 3)
          (Except.ok (⟨2, 100, 1⟩ : BlockchainChannelInfo) : Except ℕ _)
          (Except.ok ⟨[1], [32, 0, 0, 0, 0, 0, 1]⟩))
      ∧ (syncStatePost (newPaymentChannel 8 0 1 2 3)
          (Except.ok (⟨2, 100, 1⟩ : BlockchainChannelInfo) : Except ℕ _)
          (Except.ok ⟨[1], [32, 0, 0, 0, 0, 0, 1]⟩)).state.lastSignedAmount
        = some 9007199254740993
      ∧ (syncStatePost (newPaymentChannel 8 0 1 2 3)
          (Except.ok (⟨2, 100, 1⟩ : BlockchainChannelInfo) : Except ℕ _)
          (Except.ok ⟨[1], [32, 0, 0, 0, 0, 0, 1]⟩)).state.totalAmount = some 1
      ∧ (syncStatePost (newPaymentChannel 8 0 1 2 3)
          (Except.ok (⟨2, 100, 1⟩ : BlockchainChannelInfo) : Except ℕ _)
          (Except.ok ⟨[1], [32, 0, 0, 0, 0, 0, 1]⟩)).state.availableAmount
        = some (some (-9007199254740991))
      ∧ (-9007199254740991 : ℤ) < 0
      ∧ (1 : ℤ) - 9007199254740993 = -9007199254740992
      ∧ (syncStatePost (newPaymentChannel 8 0 1 2 3)
          (Except.ok (⟨2, 100, 1⟩ : BlockchainChannelInfo) : Except ℕ _)
          (Except.ok ⟨[1], [32, 0, 0, 0, 0, 0, 1]⟩)).state.availableAmount
        ≠ some (some ((1 : ℤ) - 9007199254740993)) := by
  refine ⟨rfl, ?_, rfl, ?_, by norm_num, by norm_num, ?_⟩ <;> decide
